import Mathlib

/-!
# Verification of `httpx/dispatch/connection.py` (`HTTPConnection`)

Shallow embedding of the per-origin connection abstraction: the
`HTTPConnection` class owning at most one bound protocol handle
(`h11_connection` / `h2_connection`), with lazy connect, protocol
negotiation via the concurrency backend, delegation of `send`/`close`
and the health accessors.

External collaborators (the concurrency backend, the two protocol
connection classes, SSL/timeout configuration) live outside the given
source file; their observable behaviour is supplied by an `Env` oracle
and every interaction with them is recorded in an event trace.
Mutation of `self` is modelled by explicit state passing: each operation
returns the updated `HTTPConnection` value together with its result
(`Except` for Python exceptions) and the trace of external calls.
-/

namespace Httpx

/-- `VerifyTypes`: TLS verification mode (modelled as the boolean case). -/
abbrev VerifyTypes := Bool

/-- `CertTypes`: client certificate material (abstract identifier).
In Python `cert=None` means "no certificate"; we use `Option CertTypes`. -/
abbrev CertTypes := String

/-- `TimeoutTypes`: raw timeout value accepted by `TimeoutConfig(...)`. -/
abbrev TimeoutTypes := Nat

/-- `TimeoutConfig`: immutable timeout configuration wrapping the raw value. -/
structure TimeoutConfig where
  val : TimeoutTypes
deriving DecidableEq, Repr

/-- `DEFAULT_TIMEOUT_CONFIG` from `httpx.config` (abstract raw value). -/
def DEFAULT_TIMEOUT_CONFIG : TimeoutTypes := 0

/-- `SSLConfig`: stored TLS configuration (verification mode, certificate). -/
structure SSLConfig where
  verify : VerifyTypes
  cert : Option CertTypes
deriving DecidableEq, Repr

/-- Modelled from the spec: `SSLConfig.with_overrides` lives in
`httpx/config.py`, which is not part of the given source. Per the spec,
a per-call override "produces a derived configuration overriding
verification/certificate per call", never mutating the stored default:
a pure merge of the stored defaults with the optional overrides. -/
def SSLConfig.with_overrides (s : SSLConfig) (verify : Option VerifyTypes)
    (cert : Option CertTypes) : SSLConfig :=
  { verify := match verify with
      | some v => v
      | none => s.verify
    cert := match cert with
      | some c => some c
      | none => s.cert }

/-- Modelled from the spec: `Origin` lives in `httpx/models.py`, which is
not part of the given source. Per the spec it is the immutable identity
{scheme, host, port}. -/
structure Origin where
  scheme : String
  host : String
  port : Nat
deriving DecidableEq, Repr

/-- Modelled from the spec: `Origin.is_ssl` — "`is_ssl` = scheme implies TLS". -/
def Origin.is_ssl (o : Origin) : Bool := o.scheme == "https"

/-- `Protocol` tag reported by the backend negotiation (`httpx.interfaces`). -/
inductive Protocol
  | http_11
  | http_2
deriving DecidableEq, Repr

/-- The release-forwarding closure `functools.partial(self.release_func, self)`:
the release callback (identified by `callback`) already applied to the
`HTTPConnection` instance itself (identified by `conn_id`, the object's
identity, not a copy). -/
structure BoundRelease where
  callback : Nat
  conn_id : Nat
deriving DecidableEq, Repr

/-- `HTTP11Connection` handle as constructed by `HTTPConnection.connect`:
`HTTP11Connection(reader, writer, self.backend, on_release=on_release)`.
The handle records its construction arguments; its behaviour is external
(supplied by `Env`). -/
structure HTTP11Connection where
  reader : Nat
  writer : Nat
  backend : Nat
  on_release : Option BoundRelease
deriving DecidableEq, Repr

/-- `HTTP2Connection` handle as constructed by `HTTPConnection.connect`. -/
structure HTTP2Connection where
  reader : Nat
  writer : Nat
  backend : Nat
  on_release : Option BoundRelease
deriving DecidableEq, Repr

/-- Python exceptions relevant to this module: recoverable network/TLS
errors raised by external collaborators, and the `AssertionError` raised
by the `assert` statements (a fatal internal error, distinct by
construction from every network error). -/
inductive Error
  | network (code : Nat)
  | assertionError
deriving DecidableEq, Repr

/-- One observable interaction with an external collaborator. -/
inductive ConnEvent
  | loadSslContext (ssl : SSLConfig)
  | backendConnect (host : String) (port : Nat) (ssl_context : Option Nat)
      (timeout : TimeoutConfig)
  | h2Send (h : HTTP2Connection) (request : Nat) (timeout : Option TimeoutTypes)
  | h11Send (h : HTTP11Connection) (request : Nat) (timeout : Option TimeoutTypes)
  | h2Close (h : HTTP2Connection)
  | h11Close (h : HTTP11Connection)
deriving DecidableEq, Repr

/-- Behaviour oracle for the external collaborators: what each external
call returns (or which exception it raises) on given arguments.
`loadSslContext` models `ssl.load_ssl_context()` (result: an abstract
SSL-context identifier); `backendConnect` models
`self.backend.connect(host, port, ssl_context, timeout)` returning
`(reader, writer, protocol)`; the rest model the two protocol handles'
`send`, `close`, `is_closed` and `is_connection_dropped`. -/
structure Env where
  loadSslContext : SSLConfig → Except Error Nat
  backendConnect : String → Nat → Option Nat → TimeoutConfig →
      Except Error (Nat × Nat × Protocol)
  h2Send : HTTP2Connection → Nat → Option TimeoutTypes → Except Error Nat
  h11Send : HTTP11Connection → Nat → Option TimeoutTypes → Except Error Nat
  h2Close : HTTP2Connection → Except Error Unit
  h11Close : HTTP11Connection → Except Error Unit
  h2IsClosed : HTTP2Connection → Bool
  h11IsClosed : HTTP11Connection → Bool
  h2Dropped : HTTP2Connection → Bool
  h11Dropped : HTTP11Connection → Bool

/-- The state of one `HTTPConnection` instance: the fields set by
`__init__` plus the two optional protocol handles. `self_id` is the
Python object identity of the instance (fixed for its lifetime). -/
structure HTTPConnection where
  self_id : Nat
  origin : Origin
  ssl : SSLConfig
  timeout : TimeoutConfig
  backend : Nat
  release_func : Option Nat
  h11_connection : Option HTTP11Connection
  h2_connection : Option HTTP2Connection
deriving DecidableEq, Repr

/-- `HTTPConnection.__init__`: stores the configuration, defaults the
backend to `AsyncioBackend()` (identifier `0`), and leaves both protocol
handles `None`. No external call occurs. -/
def HTTPConnection.init (self_id : Nat) (origin : Origin)
    (verify : VerifyTypes) (cert : Option CertTypes) (timeout : TimeoutTypes)
    (backend : Option Nat) (release_func : Option Nat) : HTTPConnection :=
  { self_id := self_id
    origin := origin
    ssl := { verify := verify, cert := cert }
    timeout := ⟨timeout⟩
    backend := match backend with
      | none => 0
      | some b => b
    release_func := release_func
    h11_connection := none
    h2_connection := none }

instance {α β : Type} [DecidableEq α] [DecidableEq β] :
    DecidableEq (Except α β) := fun x y =>
  match x, y with
  | Except.ok a, Except.ok b =>
    if h : a = b then isTrue (by rw [h]) else isFalse (by simp [h])
  | Except.error a, Except.error b =>
    if h : a = b then isTrue (by rw [h]) else isFalse (by simp [h])
  | Except.ok _, Except.error _ => isFalse (by simp)
  | Except.error _, Except.ok _ => isFalse (by simp)

/-- Result of one `connect` call: the raised exception if any, the
instance state afterwards, and the external calls made. -/
structure ConnectOutcome where
  result : Except Error Unit
  conn : HTTPConnection
  trace : List ConnEvent
deriving DecidableEq, Repr

/-- Result of one `send` call (`Nat` abstracts the response object). -/
structure SendOutcome where
  result : Except Error Nat
  conn : HTTPConnection
  trace : List ConnEvent
deriving DecidableEq, Repr

/-- Result of one `close` call. -/
structure CloseOutcome where
  result : Except Error Unit
  conn : HTTPConnection
  trace : List ConnEvent
deriving DecidableEq, Repr

/-- The line `timeout = self.timeout if timeout is None else TimeoutConfig(timeout)`
of `HTTPConnection.connect`. -/
def HTTPConnection.effectiveTimeout (c : HTTPConnection)
    (timeout : Option TimeoutTypes) : TimeoutConfig :=
  match timeout with
  | none => c.timeout
  | some t => ⟨t⟩

/-- The `on_release` computation of `HTTPConnection.connect`:
`None` when `self.release_func is None`, otherwise
`functools.partial(self.release_func, self)`. -/
def HTTPConnection.onRelease (c : HTTPConnection) : Option BoundRelease :=
  match c.release_func with
  | none => none
  | some f => some ⟨f, c.self_id⟩

/-- The line `ssl_context = await ssl.load_ssl_context() if self.origin.is_ssl else None`
of `HTTPConnection.connect` (value part). -/
def HTTPConnection.sslContextResult (env : Env) (c : HTTPConnection)
    (ssl : SSLConfig) : Except Error (Option Nat) :=
  if c.origin.is_ssl then (env.loadSslContext ssl).map some
  else Except.ok none

/-- `HTTPConnection.connect(verify=None, cert=None, timeout=None)`:
derive the effective SSL config and timeout, load the TLS context when
the origin requires TLS, build the release-forwarding closure, call
`self.backend.connect`, and bind exactly one protocol handle according
to the negotiated protocol. Any exception from the TLS-context load or
the backend connect propagates and leaves the state untouched. -/
def HTTPConnection.connect (env : Env) (c : HTTPConnection)
    (verify : Option VerifyTypes) (cert : Option CertTypes)
    (timeout : Option TimeoutTypes) : ConnectOutcome :=
  let ssl := c.ssl.with_overrides verify cert
  let tconf := c.effectiveTimeout timeout
  let host := c.origin.host
  let port := c.origin.port
  let tr0 := if c.origin.is_ssl then [ConnEvent.loadSslContext ssl] else []
  match HTTPConnection.sslContextResult env c ssl with
  | Except.error e => ⟨Except.error e, c, tr0⟩
  | Except.ok ssl_context =>
    let on_release := c.onRelease
    let tr1 := tr0 ++ [ConnEvent.backendConnect host port ssl_context tconf]
    match env.backendConnect host port ssl_context tconf with
    | Except.error e => ⟨Except.error e, c, tr1⟩
    | Except.ok (reader, writer, protocol) =>
      if protocol = Protocol.http_2 then
        ⟨Except.ok (),
         { c with h2_connection := some ⟨reader, writer, c.backend, on_release⟩ },
         tr1⟩
      else
        ⟨Except.ok (),
         { c with h11_connection := some ⟨reader, writer, c.backend, on_release⟩ },
         tr1⟩

/-- `HTTPConnection.send(request, verify=None, cert=None, timeout=None)`:
if both handles are `None`, first `await self.connect(...)` with the
given overrides; then delegate to `h2_connection.send` when HTTP/2 is
bound, else to `h11_connection.send` (asserting it is bound), passing
the request and the raw `timeout` argument; return that response. -/
def HTTPConnection.send (env : Env) (c : HTTPConnection) (request : Nat)
    (verify : Option VerifyTypes) (cert : Option CertTypes)
    (timeout : Option TimeoutTypes) : SendOutcome :=
  let step1 : Except Error Unit × HTTPConnection × List ConnEvent :=
    if c.h11_connection = none ∧ c.h2_connection = none then
      let co := HTTPConnection.connect env c verify cert timeout
      (co.result, co.conn, co.trace)
    else
      (Except.ok (), c, [])
  match step1 with
  | (Except.error e, c1, tr) => ⟨Except.error e, c1, tr⟩
  | (Except.ok _, c1, tr) =>
    match c1.h2_connection with
    | some h2 =>
      ⟨env.h2Send h2 request timeout, c1, tr ++ [ConnEvent.h2Send h2 request timeout]⟩
    | none =>
      match c1.h11_connection with
      | some h11 =>
        ⟨env.h11Send h11 request timeout, c1,
         tr ++ [ConnEvent.h11Send h11 request timeout]⟩
      | none => ⟨Except.error Error.assertionError, c1, tr⟩

/-- `HTTPConnection.close()`: close `h2_connection` when bound, else
`h11_connection` when bound, else do nothing. No field is assigned. -/
def HTTPConnection.close (env : Env) (c : HTTPConnection) : CloseOutcome :=
  match c.h2_connection with
  | some h2 => ⟨env.h2Close h2, c, [ConnEvent.h2Close h2]⟩
  | none =>
    match c.h11_connection with
    | some h11 => ⟨env.h11Close h11, c, [ConnEvent.h11Close h11]⟩
    | none => ⟨Except.ok (), c, []⟩

/-- `HTTPConnection.is_http2` property. -/
def HTTPConnection.is_http2 (c : HTTPConnection) : Bool :=
  c.h2_connection.isSome

/-- `HTTPConnection.is_closed` property: delegate to the bound handle;
the `assert self.h11_connection is not None` raises `AssertionError`
when neither handle is bound. -/
def HTTPConnection.is_closed (env : Env) (c : HTTPConnection) :
    Except Error Bool :=
  match c.h2_connection with
  | some h2 => Except.ok (env.h2IsClosed h2)
  | none =>
    match c.h11_connection with
    | some h11 => Except.ok (env.h11IsClosed h11)
    | none => Except.error Error.assertionError

/-- `HTTPConnection.is_connection_dropped()`: delegate to the bound
handle; `AssertionError` when neither handle is bound. -/
def HTTPConnection.is_connection_dropped (env : Env) (c : HTTPConnection) :
    Except Error Bool :=
  match c.h2_connection with
  | some h2 => Except.ok (env.h2Dropped h2)
  | none =>
    match c.h11_connection with
    | some h11 => Except.ok (env.h11Dropped h11)
    | none => Except.error Error.assertionError

/-- Number of protocol handles currently bound (0, 1 or 2). -/
def boundCount (c : HTTPConnection) : Nat :=
  (if c.h11_connection.isSome then 1 else 0)
  + (if c.h2_connection.isSome then 1 else 0)

/-- An operation of the production client interface on one instance. -/
inductive Op
  | send (request : Nat) (verify : Option VerifyTypes) (cert : Option CertTypes)
      (timeout : Option TimeoutTypes)
  | close
deriving DecidableEq, Repr

/-- Run a sequence of `send`/`close` operations, threading the instance
state and concatenating the event traces. -/
def runOps (env : Env) : HTTPConnection → List Op → HTTPConnection × List ConnEvent
  | c, [] => (c, [])
  | c, Op.send r v ce t :: rest =>
    let o := HTTPConnection.send env c r v ce t
    let p := runOps env o.conn rest
    (p.1, o.trace ++ p.2)
  | c, Op.close :: rest =>
    let o := HTTPConnection.close env c
    let p := runOps env o.conn rest
    (p.1, o.trace ++ p.2)

/-- Arguments of one `send` call. -/
structure SendArgs where
  request : Nat
  verify : Option VerifyTypes
  cert : Option CertTypes
  timeout : Option TimeoutTypes
deriving DecidableEq, Repr

/-- Whether an `Except` result is a success. -/
def exceptOk {α : Type} : Except Error α → Bool
  | Except.ok _ => true
  | Except.error _ => false

/-- Run a sequence of `send` calls; the final component records whether
every call returned successfully. -/
def runSends (env : Env) : HTTPConnection → List SendArgs →
    HTTPConnection × List ConnEvent × Bool
  | c, [] => (c, [], true)
  | c, a :: rest =>
    let o := HTTPConnection.send env c a.request a.verify a.cert a.timeout
    let p := runSends env o.conn rest
    (p.1, o.trace ++ p.2.1, exceptOk o.result && p.2.2)

/-- Is this event a transport-establishment call (`backend.connect`)? -/
def isTransportConnect : ConnEvent → Bool
  | ConnEvent.backendConnect _ _ _ _ => true
  | _ => false

/-- Is this event part of the connect phase (TLS-context load or
transport establishment)? -/
def isConnectPhase : ConnEvent → Bool
  | ConnEvent.backendConnect _ _ _ _ => true
  | ConnEvent.loadSslContext _ => true
  | _ => false

/-- Number of `backend.connect` calls in a trace. -/
def transportConnects (tr : List ConnEvent) : Nat :=
  (tr.filter isTransportConnect).length

/-- Number of connect-phase events in a trace. -/
def connectPhaseEvents (tr : List ConnEvent) : Nat :=
  (tr.filter isConnectPhase).length

/-- Number of delegations to `h11_connection.send` in a trace. -/
def h11Sends (tr : List ConnEvent) : Nat :=
  (tr.filter fun e => match e with
    | ConnEvent.h11Send _ _ _ => true
    | _ => false).length

/-- Number of delegations to `h2_connection.send` in a trace. -/
def h2Sends (tr : List ConnEvent) : Nat :=
  (tr.filter fun e => match e with
    | ConnEvent.h2Send _ _ _ => true
    | _ => false).length

/-- The timeout argument handed to a protocol handle's `send` by this
event, when it is such a delegation. -/
def sentTimeout : ConnEvent → Option (Option TimeoutTypes)
  | ConnEvent.h2Send _ _ t => some t
  | ConnEvent.h11Send _ _ t => some t
  | _ => none

/-- The connect-phase events preceding `backend.connect`: the TLS-context
load when the origin requires TLS, nothing otherwise. -/
def connectSslTrace (c : HTTPConnection) (v : Option VerifyTypes)
    (ce : Option CertTypes) : List ConnEvent :=
  if c.origin.is_ssl then [ConnEvent.loadSslContext (c.ssl.with_overrides v ce)]
  else []

/-- `connect` has exactly four outcome shapes: TLS-context failure,
backend-connect failure, HTTP/2 binding, HTTP/1.1 binding. -/
theorem connect_shape (env : Env) (c : HTTPConnection) (v : Option VerifyTypes)
    (ce : Option CertTypes) (t : Option TimeoutTypes) :
    (∃ e, HTTPConnection.connect env c v ce t
        = ⟨Except.error e, c, connectSslTrace c v ce⟩)
    ∨ (∃ e ctx, HTTPConnection.connect env c v ce t
        = ⟨Except.error e, c,
           connectSslTrace c v ce
             ++ [ConnEvent.backendConnect c.origin.host c.origin.port ctx
                  (c.effectiveTimeout t)]⟩)
    ∨ (∃ r w ctx, HTTPConnection.connect env c v ce t
        = ⟨Except.ok (),
           { c with h2_connection := some ⟨r, w, c.backend, c.onRelease⟩ },
           connectSslTrace c v ce
             ++ [ConnEvent.backendConnect c.origin.host c.origin.port ctx
                  (c.effectiveTimeout t)]⟩)
    ∨ (∃ r w ctx, HTTPConnection.connect env c v ce t
        = ⟨Except.ok (),
           { c with h11_connection := some ⟨r, w, c.backend, c.onRelease⟩ },
           connectSslTrace c v ce
             ++ [ConnEvent.backendConnect c.origin.host c.origin.port ctx
                  (c.effectiveTimeout t)]⟩) := by
  unfold HTTPConnection.connect connectSslTrace
  cases hssl : HTTPConnection.sslContextResult env c
      (SSLConfig.with_overrides c.ssl v ce) with
  | error e => exact Or.inl ⟨e, by simp [hssl]⟩
  | ok ctx =>
    cases hbc : env.backendConnect c.origin.host c.origin.port ctx
        (c.effectiveTimeout t) with
    | error e => exact Or.inr (Or.inl ⟨e, ctx, by simp [hssl, hbc]⟩)
    | ok rwp =>
      obtain ⟨r, w, p⟩ := rwp
      cases p with
      | http_2 =>
        exact Or.inr (Or.inr (Or.inl ⟨r, w, ctx, by simp [hssl, hbc]⟩))
      | http_11 =>
        exact Or.inr (Or.inr (Or.inr ⟨r, w, ctx, by simp [hssl, hbc]⟩))

/-- A failing `connect` leaves the instance state untouched. -/
theorem connect_conn_of_error (env : Env) (c : HTTPConnection)
    (v : Option VerifyTypes) (ce : Option CertTypes) (t : Option TimeoutTypes)
    (e : Error)
    (h : (HTTPConnection.connect env c v ce t).result = Except.error e) :
    (HTTPConnection.connect env c v ce t).conn = c := by
  rcases connect_shape env c v ce t with ⟨e', hq⟩ | ⟨e', ctx, hq⟩
    | ⟨r, w, ctx, hq⟩ | ⟨r, w, ctx, hq⟩ <;> rw [hq] <;> rw [hq] at h <;>
    simp_all

/-- `connect` never assigns to the configuration fields of the instance. -/
theorem connect_frame (env : Env) (c : HTTPConnection) (v : Option VerifyTypes)
    (ce : Option CertTypes) (t : Option TimeoutTypes) :
    (HTTPConnection.connect env c v ce t).conn.self_id = c.self_id
    ∧ (HTTPConnection.connect env c v ce t).conn.origin = c.origin
    ∧ (HTTPConnection.connect env c v ce t).conn.ssl = c.ssl
    ∧ (HTTPConnection.connect env c v ce t).conn.timeout = c.timeout
    ∧ (HTTPConnection.connect env c v ce t).conn.backend = c.backend
    ∧ (HTTPConnection.connect env c v ce t).conn.release_func = c.release_func := by
  rcases connect_shape env c v ce t with ⟨e', hq⟩ | ⟨e', ctx, hq⟩
    | ⟨r, w, ctx, hq⟩ | ⟨r, w, ctx, hq⟩ <;> rw [hq] <;> simp

/-- A successful `connect` from the unbound state binds exactly one handle,
leaves the other `none`, and equips the new handle with the
release-forwarding closure and the instance's backend. -/
theorem connect_ok_binds (env : Env) (c : HTTPConnection)
    (v : Option VerifyTypes) (ce : Option CertTypes) (t : Option TimeoutTypes)
    (h11 : c.h11_connection = none) (h2 : c.h2_connection = none)
    (hok : (HTTPConnection.connect env c v ce t).result = Except.ok ()) :
    ((∃ hh : HTTP2Connection,
        (HTTPConnection.connect env c v ce t).conn.h2_connection = some hh
        ∧ (HTTPConnection.connect env c v ce t).conn.h11_connection = none
        ∧ hh.on_release = c.onRelease ∧ hh.backend = c.backend)
     ∨ (∃ hh : HTTP11Connection,
        (HTTPConnection.connect env c v ce t).conn.h11_connection = some hh
        ∧ (HTTPConnection.connect env c v ce t).conn.h2_connection = none
        ∧ hh.on_release = c.onRelease ∧ hh.backend = c.backend)) := by
  rcases connect_shape env c v ce t with ⟨e', hq⟩ | ⟨e', ctx, hq⟩
    | ⟨r, w, ctx, hq⟩ | ⟨r, w, ctx, hq⟩
  · rw [hq] at hok; simp at hok
  · rw [hq] at hok; simp at hok
  · exact Or.inl ⟨⟨r, w, c.backend, c.onRelease⟩, by rw [hq],
      by rw [hq]; simpa using h11, rfl, rfl⟩
  · exact Or.inr ⟨⟨r, w, c.backend, c.onRelease⟩, by rw [hq],
      by rw [hq]; simpa using h2, rfl, rfl⟩

/-- `send` on an instance with HTTP/2 bound: pure delegation. -/
theorem send_bound_h2 (env : Env) (c : HTTPConnection) (r : Nat)
    (v : Option VerifyTypes) (ce : Option CertTypes) (t : Option TimeoutTypes)
    (hh : HTTP2Connection) (h : c.h2_connection = some hh) :
    HTTPConnection.send env c r v ce t
      = ⟨env.h2Send hh r t, c, [ConnEvent.h2Send hh r t]⟩ := by
  unfold HTTPConnection.send
  simp [h]

/-- `send` on an instance with HTTP/1.1 bound (HTTP/2 not bound):
pure delegation. -/
theorem send_bound_h11 (env : Env) (c : HTTPConnection) (r : Nat)
    (v : Option VerifyTypes) (ce : Option CertTypes) (t : Option TimeoutTypes)
    (hh : HTTP11Connection) (h2 : c.h2_connection = none)
    (h : c.h11_connection = some hh) :
    HTTPConnection.send env c r v ce t
      = ⟨env.h11Send hh r t, c, [ConnEvent.h11Send hh r t]⟩ := by
  unfold HTTPConnection.send
  simp [h, h2]

/-- `send` on a bound instance does not change the state. -/
theorem send_conn_of_bound (env : Env) (c : HTTPConnection) (r : Nat)
    (v : Option VerifyTypes) (ce : Option CertTypes) (t : Option TimeoutTypes)
    (h : ¬(c.h11_connection = none ∧ c.h2_connection = none)) :
    (HTTPConnection.send env c r v ce t).conn = c := by
  cases hh2 : c.h2_connection with
  | some hh => rw [send_bound_h2 env c r v ce t hh hh2]
  | none =>
    cases hh11 : c.h11_connection with
    | some hh => rw [send_bound_h11 env c r v ce t hh hh2 hh11]
    | none => exact absurd ⟨hh11, hh2⟩ h

/-- `send` on a bound instance performs no connect-phase external call. -/
theorem send_trace_of_bound (env : Env) (c : HTTPConnection) (r : Nat)
    (v : Option VerifyTypes) (ce : Option CertTypes) (t : Option TimeoutTypes)
    (h : ¬(c.h11_connection = none ∧ c.h2_connection = none)) :
    connectPhaseEvents (HTTPConnection.send env c r v ce t).trace = 0 := by
  cases hh2 : c.h2_connection with
  | some hh =>
    rw [send_bound_h2 env c r v ce t hh hh2]
    simp [connectPhaseEvents, isConnectPhase]
  | none =>
    cases hh11 : c.h11_connection with
    | some hh =>
      rw [send_bound_h11 env c r v ce t hh hh2 hh11]
      simp [connectPhaseEvents, isConnectPhase]
    | none => exact absurd ⟨hh11, hh2⟩ h

/-- `send` on a bound instance makes no transport-establishment call. -/
theorem send_tc_of_bound (env : Env) (c : HTTPConnection) (r : Nat)
    (v : Option VerifyTypes) (ce : Option CertTypes) (t : Option TimeoutTypes)
    (h : ¬(c.h11_connection = none ∧ c.h2_connection = none)) :
    transportConnects (HTTPConnection.send env c r v ce t).trace = 0 := by
  cases hh2 : c.h2_connection with
  | some hh =>
    rw [send_bound_h2 env c r v ce t hh hh2]
    simp [transportConnects, isTransportConnect]
  | none =>
    cases hh11 : c.h11_connection with
    | some hh =>
      rw [send_bound_h11 env c r v ce t hh hh2 hh11]
      simp [transportConnects, isTransportConnect]
    | none => exact absurd ⟨hh11, hh2⟩ h

/-- `send` on an unbound instance runs `connect` and then (at most) one
delegation: the final state is `connect`'s state, the trace extends
`connect`'s trace by delegation events only. -/
theorem send_unbound (env : Env) (c : HTTPConnection) (r : Nat)
    (v : Option VerifyTypes) (ce : Option CertTypes) (t : Option TimeoutTypes)
    (h11 : c.h11_connection = none) (h2 : c.h2_connection = none) :
    (HTTPConnection.send env c r v ce t).conn
        = (HTTPConnection.connect env c v ce t).conn
    ∧ (∃ rest, (HTTPConnection.send env c r v ce t).trace
        = (HTTPConnection.connect env c v ce t).trace ++ rest
        ∧ ∀ ev ∈ rest, isConnectPhase ev = false) := by
  have hcond : (c.h11_connection = none ∧ c.h2_connection = none) := ⟨h11, h2⟩
  unfold HTTPConnection.send
  rw [if_pos hcond]
  cases hco : HTTPConnection.connect env c v ce t with
  | mk res conn' tr =>
    cases res with
    | error e =>
      dsimp only
      refine ⟨rfl, [], ?_, ?_⟩
      · simp
      · simp
    | ok u =>
      dsimp only
      cases hc2 : conn'.h2_connection with
      | some hh =>
        exact ⟨by simp [hc2], [ConnEvent.h2Send hh r t], by simp [hc2],
          by simp [isConnectPhase]⟩
      | none =>
        cases hc11 : conn'.h11_connection with
        | some hh =>
          exact ⟨by simp [hc2, hc11], [ConnEvent.h11Send hh r t],
            by simp [hc2, hc11],
            by simp [isConnectPhase]⟩
        | none =>
          exact ⟨by simp [hc2, hc11], [], by simp [hc2, hc11],
            by simp⟩

/-- `close` never changes the state. -/
theorem close_conn (env : Env) (c : HTTPConnection) :
    (HTTPConnection.close env c).conn = c := by
  unfold HTTPConnection.close
  cases c.h2_connection with
  | some hh => rfl
  | none =>
    cases c.h11_connection with
    | some hh => rfl
    | none => rfl

theorem transportConnects_append (xs ys : List ConnEvent) :
    transportConnects (xs ++ ys) = transportConnects xs + transportConnects ys := by
  simp [transportConnects, List.filter_append]

theorem isConnectPhase_of_transport (ev : ConnEvent)
    (h : isTransportConnect ev = true) : isConnectPhase ev = true := by
  cases ev <;> simp_all [isTransportConnect, isConnectPhase]

theorem transportConnects_zero_of_no_phase (xs : List ConnEvent)
    (h : ∀ ev ∈ xs, isConnectPhase ev = false) :
    transportConnects xs = 0 := by
  unfold transportConnects
  rw [List.filter_eq_nil_iff.mpr]
  · rfl
  · intro ev hev hb
    have := isConnectPhase_of_transport ev hb
    rw [h ev hev] at this
    exact Bool.false_ne_true this

theorem sslTrace_no_transport (c : HTTPConnection) (v : Option VerifyTypes)
    (ce : Option CertTypes) :
    transportConnects (connectSslTrace c v ce) = 0 := by
  unfold connectSslTrace
  cases h : c.origin.is_ssl <;>
    simp [h, transportConnects, isTransportConnect]

/-- A successful `connect` makes exactly one transport-establishment call. -/
theorem connect_transport_once (env : Env) (c : HTTPConnection)
    (v : Option VerifyTypes) (ce : Option CertTypes) (t : Option TimeoutTypes)
    (hok : (HTTPConnection.connect env c v ce t).result = Except.ok ()) :
    transportConnects (HTTPConnection.connect env c v ce t).trace = 1 := by
  rcases connect_shape env c v ce t with ⟨e', hq⟩ | ⟨e', ctx, hq⟩
    | ⟨r, w, ctx, hq⟩ | ⟨r, w, ctx, hq⟩
  · rw [hq] at hok; simp at hok
  · rw [hq] at hok; simp at hok
  · rw [hq]
    simp only [transportConnects_append, sslTrace_no_transport]
    simp [transportConnects, isTransportConnect]
  · rw [hq]
    simp only [transportConnects_append, sslTrace_no_transport]
    simp [transportConnects, isTransportConnect]

/-- `connect` never delegates to a protocol handle's `send`, and every
event it emits carries no per-request timeout argument. -/
theorem connect_no_delegation (env : Env) (c : HTTPConnection)
    (v : Option VerifyTypes) (ce : Option CertTypes) (t : Option TimeoutTypes) :
    h11Sends (HTTPConnection.connect env c v ce t).trace = 0
    ∧ h2Sends (HTTPConnection.connect env c v ce t).trace = 0
    ∧ ∀ ev ∈ (HTTPConnection.connect env c v ce t).trace,
        sentTimeout ev = none := by
  rcases connect_shape env c v ce t with ⟨e', hq⟩ | ⟨e', ctx, hq⟩
    | ⟨r, w, ctx, hq⟩ | ⟨r, w, ctx, hq⟩ <;> rw [hq] <;>
    unfold connectSslTrace <;> cases h : c.origin.is_ssl <;>
    simp [h, h11Sends, h2Sends, sentTimeout]

/-- A `send` whose result is a success from the unbound state means the
`connect` succeeded and the instance ends up bound. -/
theorem send_unbound_ok (env : Env) (c : HTTPConnection) (r : Nat)
    (v : Option VerifyTypes) (ce : Option CertTypes) (t : Option TimeoutTypes)
    (h11 : c.h11_connection = none) (h2 : c.h2_connection = none)
    (hok : exceptOk (HTTPConnection.send env c r v ce t).result = true) :
    (HTTPConnection.connect env c v ce t).result = Except.ok ()
    ∧ ¬((HTTPConnection.send env c r v ce t).conn.h11_connection = none
        ∧ (HTTPConnection.send env c r v ce t).conn.h2_connection = none) := by
  have hcond : (c.h11_connection = none ∧ c.h2_connection = none) := ⟨h11, h2⟩
  unfold HTTPConnection.send at hok ⊢
  rw [if_pos hcond] at hok ⊢
  cases hco : HTTPConnection.connect env c v ce t with
  | mk res conn' tr =>
    rw [hco] at hok
    cases res with
    | error e => simp [exceptOk] at hok
    | ok u =>
      dsimp only at hok ⊢
      cases hc2 : conn'.h2_connection with
      | some hh =>
        rw [hc2] at hok ⊢
        exact ⟨rfl, by simp [hc2]⟩
      | none =>
        cases hc11 : conn'.h11_connection with
        | some hh =>
          rw [hc2, hc11] at hok ⊢
          exact ⟨rfl, by simp [hc2, hc11]⟩
        | none =>
          rw [hc2, hc11] at hok
          simp [exceptOk] at hok

theorem send_boundCount (env : Env) (c : HTTPConnection) (r : Nat)
    (v : Option VerifyTypes) (ce : Option CertTypes) (t : Option TimeoutTypes)
    (h : boundCount c ≤ 1) :
    boundCount (HTTPConnection.send env c r v ce t).conn ≤ 1 := by
  by_cases hnull : (c.h11_connection = none ∧ c.h2_connection = none)
  · rw [(send_unbound env c r v ce t hnull.1 hnull.2).1]
    rcases connect_shape env c v ce t with ⟨e', hq⟩ | ⟨e', ctx, hq⟩
      | ⟨rr, w, ctx, hq⟩ | ⟨rr, w, ctx, hq⟩ <;> rw [hq] <;>
      simp [boundCount, hnull.1, hnull.2]
  · rw [send_conn_of_bound env c r v ce t hnull]
    exact h

theorem runOps_conn_preserved (env : Env) (ops : List Op) (c : HTTPConnection)
    (h : ¬(c.h11_connection = none ∧ c.h2_connection = none)) :
    (runOps env c ops).1 = c := by
  induction ops with
  | nil => rfl
  | cons op rest ih =>
    cases op with
    | send r v ce t =>
      show (runOps env (HTTPConnection.send env c r v ce t).conn rest).1 = c
      rw [send_conn_of_bound env c r v ce t h]
      exact ih
    | close =>
      show (runOps env (HTTPConnection.close env c).conn rest).1 = c
      rw [close_conn env c]
      exact ih

theorem runOps_boundCount (env : Env) (ops : List Op) (c : HTTPConnection)
    (h : boundCount c ≤ 1) :
    boundCount (runOps env c ops).1 ≤ 1 := by
  induction ops generalizing c with
  | nil => exact h
  | cons op rest ih =>
    cases op with
    | send r v ce t =>
      exact ih (HTTPConnection.send env c r v ce t).conn
        (send_boundCount env c r v ce t h)
    | close =>
      show boundCount (runOps env (HTTPConnection.close env c).conn rest).1 ≤ 1
      rw [close_conn env c]
      exact ih c h

theorem runSends_bound (env : Env) (sas : List SendArgs) (c : HTTPConnection)
    (h : ¬(c.h11_connection = none ∧ c.h2_connection = none)) :
    (runSends env c sas).1 = c
    ∧ transportConnects (runSends env c sas).2.1 = 0 := by
  induction sas with
  | nil => exact ⟨rfl, rfl⟩
  | cons a rest ih =>
    have hc := send_conn_of_bound env c a.request a.verify a.cert a.timeout h
    have h0 := send_tc_of_bound env c a.request a.verify a.cert a.timeout h
    constructor
    · show (runSends env
          (HTTPConnection.send env c a.request a.verify a.cert a.timeout).conn
          rest).1 = c
      rw [hc]
      exact ih.1
    · show transportConnects
          ((HTTPConnection.send env c a.request a.verify a.cert a.timeout).trace
            ++ (runSends env
              (HTTPConnection.send env c a.request a.verify a.cert
                a.timeout).conn rest).2.1) = 0
      rw [hc, transportConnects_append, h0, ih.2]

theorem h11Sends_append (xs ys : List ConnEvent) :
    h11Sends (xs ++ ys) = h11Sends xs + h11Sends ys := by
  simp [h11Sends, List.filter_append]

theorem h2Sends_append (xs ys : List ConnEvent) :
    h2Sends (xs ++ ys) = h2Sends xs + h2Sends ys := by
  simp [h2Sends, List.filter_append]

/-- The full outcome of a `connect` whose TLS-context step returned `ctx`
and whose backend negotiation returned `(rd, wr, p)`. -/
theorem connect_of_backend_ok (env : Env) (c : HTTPConnection)
    (v : Option VerifyTypes) (ce : Option CertTypes) (t : Option TimeoutTypes)
    (ctx : Option Nat) (rd wr : Nat) (p : Protocol)
    (hctx : HTTPConnection.sslContextResult env c (c.ssl.with_overrides v ce)
      = Except.ok ctx)
    (hbc : env.backendConnect c.origin.host c.origin.port ctx
      (c.effectiveTimeout t) = Except.ok (rd, wr, p)) :
    HTTPConnection.connect env c v ce t
      = ⟨Except.ok (),
         (if p = Protocol.http_2 then
            { c with h2_connection := some ⟨rd, wr, c.backend, c.onRelease⟩ }
          else
            { c with h11_connection := some ⟨rd, wr, c.backend, c.onRelease⟩ }),
         connectSslTrace c v ce
           ++ [ConnEvent.backendConnect c.origin.host c.origin.port ctx
                (c.effectiveTimeout t)]⟩ := by
  unfold HTTPConnection.connect connectSslTrace
  dsimp only
  rw [hctx]
  dsimp only
  rw [hbc]
  cases p with
  | http_2 => simp
  | http_11 => simp

/-- C3: when the backend reports HTTP/2 the request is delegated to the
HTTP/2 handle and the HTTP/1.1 handle is never invoked, and vice versa;
`send` returns the delegated handle's response unchanged. -/
theorem c3_delegation_correct (env : Env) (c : HTTPConnection) (r : Nat)
    (v : Option VerifyTypes) (ce : Option CertTypes) (t : Option TimeoutTypes)
    (ctx : Option Nat) (rd wr : Nat) (p : Protocol) :
    (∀ hh, c.h2_connection = some hh →
        HTTPConnection.send env c r v ce t
          = ⟨env.h2Send hh r t, c, [ConnEvent.h2Send hh r t]⟩
        ∧ h11Sends (HTTPConnection.send env c r v ce t).trace = 0)
    ∧ (∀ hh, c.h2_connection = none → c.h11_connection = some hh →
        HTTPConnection.send env c r v ce t
          = ⟨env.h11Send hh r t, c, [ConnEvent.h11Send hh r t]⟩
        ∧ h2Sends (HTTPConnection.send env c r v ce t).trace = 0)
    ∧ (c.h11_connection = none → c.h2_connection = none →
       HTTPConnection.sslContextResult env c (c.ssl.with_overrides v ce)
         = Except.ok ctx →
       env.backendConnect c.origin.host c.origin.port ctx (c.effectiveTimeout t)
         = Except.ok (rd, wr, p) →
       ((p = Protocol.http_2 →
           (HTTPConnection.connect env c v ce t).conn
             = { c with h2_connection := some ⟨rd, wr, c.backend, c.onRelease⟩ }
           ∧ (HTTPConnection.send env c r v ce t).result
             = env.h2Send ⟨rd, wr, c.backend, c.onRelease⟩ r t
           ∧ h11Sends (HTTPConnection.send env c r v ce t).trace = 0)
        ∧ (p = Protocol.http_11 →
           (HTTPConnection.connect env c v ce t).conn
             = { c with h11_connection := some ⟨rd, wr, c.backend, c.onRelease⟩ }
           ∧ (HTTPConnection.send env c r v ce t).result
             = env.h11Send ⟨rd, wr, c.backend, c.onRelease⟩ r t
           ∧ h2Sends (HTTPConnection.send env c r v ce t).trace = 0))) := by
  refine ⟨?_, ?_, ?_⟩
  · intro hh h
    rw [send_bound_h2 env c r v ce t hh h]
    exact ⟨rfl, by simp [h11Sends]⟩
  · intro hh h2 h
    rw [send_bound_h11 env c r v ce t hh h2 h]
    exact ⟨rfl, by simp [h2Sends]⟩
  · intro h11 h2 hctx hbc
    have hnotr := connect_no_delegation env c v ce t
    constructor
    · intro hp
      subst hp
      have heq := connect_of_backend_ok env c v ce t ctx rd wr Protocol.http_2
        hctx hbc
      rw [if_pos rfl] at heq
      have hconn : (HTTPConnection.connect env c v ce t).conn
          = { c with h2_connection := some ⟨rd, wr, c.backend, c.onRelease⟩ } := by
        rw [heq]
      refine ⟨hconn, ?_, ?_⟩
      · have hcond : (c.h11_connection = none ∧ c.h2_connection = none) :=
          ⟨h11, h2⟩
        unfold HTTPConnection.send
        rw [if_pos hcond, heq]
      · have hcond : (c.h11_connection = none ∧ c.h2_connection = none) :=
          ⟨h11, h2⟩
        unfold HTTPConnection.send
        rw [if_pos hcond, heq]
        dsimp only
        rw [h11Sends_append]
        have h0 : h11Sends (HTTPConnection.connect env c v ce t).trace = 0 :=
          hnotr.1
        rw [heq] at h0
        dsimp only at h0
        rw [h0]
        simp [h11Sends]
    · intro hp
      subst hp
      have heq := connect_of_backend_ok env c v ce t ctx rd wr Protocol.http_11
        hctx hbc
      rw [if_neg (by decide)] at heq
      have hconn : (HTTPConnection.connect env c v ce t).conn
          = { c with h11_connection := some ⟨rd, wr, c.backend, c.onRelease⟩ } := by
        rw [heq]
      refine ⟨hconn, ?_, ?_⟩
      · have hcond : (c.h11_connection = none ∧ c.h2_connection = none) :=
          ⟨h11, h2⟩
        unfold HTTPConnection.send
        rw [if_pos hcond, heq]
        dsimp only
        rw [h2]
      · have hcond : (c.h11_connection = none ∧ c.h2_connection = none) :=
          ⟨h11, h2⟩
        unfold HTTPConnection.send
        rw [if_pos hcond, heq]
        dsimp only
        rw [h2]
        dsimp only
        rw [h2Sends_append]
        have h0 : h2Sends (HTTPConnection.connect env c v ce t).trace = 0 :=
          hnotr.2.1
        rw [heq] at h0
        dsimp only at h0
        rw [h0]
        simp [h2Sends]

/-- C4 (amended): `send` passes its raw per-call `timeout` argument
unchanged (`None` when no override is supplied) to the bound handle's
`send`; the merge with the instance's stored timeout happens only inside
`connect`, never on the delegation path. Every protocol-send event in a
`send` trace carries exactly the caller's raw timeout argument. -/
theorem c4_raw_timeout_passthrough (env : Env) (c : HTTPConnection) (r : Nat)
    (v : Option VerifyTypes) (ce : Option CertTypes) (t : Option TimeoutTypes) :
    ∀ ev ∈ (HTTPConnection.send env c r v ce t).trace,
      ∀ t', sentTimeout ev = some t' → t' = t := by
  by_cases hnull : (c.h11_connection = none ∧ c.h2_connection = none)
  · have hdel := (connect_no_delegation env c v ce t).2.2
    unfold HTTPConnection.send
    rw [if_pos hnull]
    cases hco : HTTPConnection.connect env c v ce t with
    | mk res conn' tr =>
      rw [hco] at hdel
      dsimp only at hdel
      cases res with
      | error e =>
        dsimp only
        intro ev hev t' hst
        rw [hdel ev hev] at hst
        exact absurd hst (by simp)
      | ok u =>
        dsimp only
        cases hc2 : conn'.h2_connection with
        | some hh =>
          intro ev hev t' hst
          rcases List.mem_append.mp hev with hl | hr
          · rw [hdel ev hl] at hst
            exact absurd hst (by simp)
          · rw [List.mem_singleton.mp hr] at hst
            simpa [sentTimeout] using hst.symm
        | none =>
          cases hc11 : conn'.h11_connection with
          | some hh =>
            intro ev hev t' hst
            rcases List.mem_append.mp hev with hl | hr
            · rw [hdel ev hl] at hst
              exact absurd hst (by simp)
            · rw [List.mem_singleton.mp hr] at hst
              simpa [sentTimeout] using hst.symm
          | none =>
            intro ev hev t' hst
            rw [hdel ev hev] at hst
            exact absurd hst (by simp)
  · cases hh2 : c.h2_connection with
    | some hh =>
      rw [send_bound_h2 env c r v ce t hh hh2]
      intro ev hev t' hst
      rw [List.mem_singleton.mp hev] at hst
      simpa [sentTimeout] using hst.symm
    | none =>
      cases hh11 : c.h11_connection with
      | some hh =>
        rw [send_bound_h11 env c r v ce t hh hh2 hh11]
        intro ev hev t' hst
        rw [List.mem_singleton.mp hev] at hst
        simpa [sentTimeout] using hst.symm
      | none => exact absurd ⟨hh11, hh2⟩ hnull

/-- C5: a failing `connect` (TLS-context construction or transport
establishment) propagates the collaborator's error unchanged and leaves
the bound state exactly as it was before the call. -/
theorem c5_connect_failure_atomic (env : Env) (c : HTTPConnection)
    (v : Option VerifyTypes) (ce : Option CertTypes) (t : Option TimeoutTypes)
    (e : Error) (ctx : Option Nat) :
    ((HTTPConnection.connect env c v ce t).result = Except.error e →
      (HTTPConnection.connect env c v ce t).conn = c)
    ∧ (c.origin.is_ssl = true →
       env.loadSslContext (c.ssl.with_overrides v ce) = Except.error e →
       (HTTPConnection.connect env c v ce t).result = Except.error e)
    ∧ (HTTPConnection.sslContextResult env c (c.ssl.with_overrides v ce)
         = Except.ok ctx →
       env.backendConnect c.origin.host c.origin.port ctx (c.effectiveTimeout t)
         = Except.error e →
       (HTTPConnection.connect env c v ce t).result = Except.error e) := by
  refine ⟨connect_conn_of_error env c v ce t e, ?_, ?_⟩
  · intro hssl hload
    have hres : HTTPConnection.sslContextResult env c
        (c.ssl.with_overrides v ce) = Except.error e := by
      unfold HTTPConnection.sslContextResult
      rw [if_pos hssl, hload]
      rfl
    unfold HTTPConnection.connect
    dsimp only
    rw [hres]
  · intro hctx hbc
    unfold HTTPConnection.connect
    dsimp only
    rw [hctx]
    dsimp only
    rw [hbc]

/-- C6: `close` closes the HTTP/2 handle when bound, else the HTTP/1.1
handle when bound, and is a successful no-op (no error, no external
call) when neither handle is bound. -/
theorem c6_close_cases (env : Env) (c : HTTPConnection) :
    (∀ hh, c.h2_connection = some hh →
        HTTPConnection.close env c
          = ⟨env.h2Close hh, c, [ConnEvent.h2Close hh]⟩)
    ∧ (∀ hh, c.h2_connection = none → c.h11_connection = some hh →
        HTTPConnection.close env c
          = ⟨env.h11Close hh, c, [ConnEvent.h11Close hh]⟩)
    ∧ (c.h2_connection = none → c.h11_connection = none →
        HTTPConnection.close env c = ⟨Except.ok (), c, []⟩) := by
  refine ⟨?_, ?_, ?_⟩
  · intro hh h
    unfold HTTPConnection.close
    rw [h]
  · intro hh h2 h
    unfold HTTPConnection.close
    rw [h2]
    dsimp only
    rw [h]
  · intro h2 h
    unfold HTTPConnection.close
    rw [h2]
    dsimp only
    rw [h]

/-- C7: `is_closed` and `is_connection_dropped` delegate to whichever
handle is bound and raise `AssertionError` — an error distinct from
every recoverable network error — exactly when neither handle is bound. -/
theorem c7_accessors_delegate_or_assert (env : Env) (c : HTTPConnection) :
    (∀ hh, c.h2_connection = some hh →
        HTTPConnection.is_closed env c = Except.ok (env.h2IsClosed hh)
        ∧ HTTPConnection.is_connection_dropped env c
            = Except.ok (env.h2Dropped hh))
    ∧ (∀ hh, c.h2_connection = none → c.h11_connection = some hh →
        HTTPConnection.is_closed env c = Except.ok (env.h11IsClosed hh)
        ∧ HTTPConnection.is_connection_dropped env c
            = Except.ok (env.h11Dropped hh))
    ∧ (c.h2_connection = none → c.h11_connection = none →
        HTTPConnection.is_closed env c = Except.error Error.assertionError
        ∧ HTTPConnection.is_connection_dropped env c
            = Except.error Error.assertionError)
    ∧ (∀ n, (Error.assertionError : Error) ≠ Error.network n) := by
  refine ⟨?_, ?_, ?_, ?_⟩
  · intro hh h
    unfold HTTPConnection.is_closed HTTPConnection.is_connection_dropped
    rw [h]
    exact ⟨rfl, rfl⟩
  · intro hh h2 h
    unfold HTTPConnection.is_closed HTTPConnection.is_connection_dropped
    rw [h2, h]
    exact ⟨rfl, rfl⟩
  · intro h2 h
    unfold HTTPConnection.is_closed HTTPConnection.is_connection_dropped
    rw [h2, h]
    exact ⟨rfl, rfl⟩
  · intro n hcontra
    exact Error.noConfusion hcontra

/-- C8: per-call verify/cert/timeout overrides are merged into an
effective configuration for that call only and never mutate the stored
`self.ssl` / `self.timeout`; a later call without overrides therefore
derives its effective configuration from the originally constructed
defaults again. When the origin requires TLS, the TLS context of this
call is loaded from the merged (override-applied) configuration. -/
theorem c8_overrides_do_not_mutate (env : Env) (c : HTTPConnection) (r : Nat)
    (v : Option VerifyTypes) (ce : Option CertTypes) (t : Option TimeoutTypes) :
    (HTTPConnection.connect env c v ce t).conn.ssl = c.ssl
    ∧ (HTTPConnection.connect env c v ce t).conn.timeout = c.timeout
    ∧ (HTTPConnection.send env c r v ce t).conn.ssl = c.ssl
    ∧ (HTTPConnection.send env c r v ce t).conn.timeout = c.timeout
    ∧ SSLConfig.with_overrides (HTTPConnection.send env c r v ce t).conn.ssl
        none none = c.ssl
    ∧ (HTTPConnection.send env c r v ce t).conn.effectiveTimeout none
        = c.timeout
    ∧ (c.origin.is_ssl = true →
        ∃ rest, (HTTPConnection.connect env c v ce t).trace
          = ConnEvent.loadSslContext (c.ssl.with_overrides v ce) :: rest) := by
  have hcf := connect_frame env c v ce t
  have hsend : (HTTPConnection.send env c r v ce t).conn.ssl = c.ssl
      ∧ (HTTPConnection.send env c r v ce t).conn.timeout = c.timeout := by
    by_cases hnull : (c.h11_connection = none ∧ c.h2_connection = none)
    · rw [(send_unbound env c r v ce t hnull.1 hnull.2).1]
      exact ⟨hcf.2.2.1, hcf.2.2.2.1⟩
    · rw [send_conn_of_bound env c r v ce t hnull]
      exact ⟨rfl, rfl⟩
  refine ⟨hcf.2.2.1, hcf.2.2.2.1, hsend.1, hsend.2, ?_, ?_, ?_⟩
  · rw [hsend.1]
    exact rfl
  · rw [show (HTTPConnection.send env c r v ce t).conn.effectiveTimeout none
        = (HTTPConnection.send env c r v ce t).conn.timeout from rfl]
    exact hsend.2
  · intro hssl
    rcases connect_shape env c v ce t with ⟨e1, hq⟩ | ⟨e1, ctx, hq⟩
      | ⟨rr, w, ctx, hq⟩ | ⟨rr, w, ctx, hq⟩ <;> rw [hq] <;>
      unfold connectSslTrace <;> rw [if_pos hssl] <;>
      exact ⟨_, rfl⟩

/-- C9: during a `connect` from the unbound state, the newly bound
protocol handle's `on_release` is the release callback applied to this
very instance (its identity, `self_id`) when a callback was supplied at
construction, and `None` otherwise. -/
theorem c9_release_closure (env : Env) (c : HTTPConnection)
    (v : Option VerifyTypes) (ce : Option CertTypes) (t : Option TimeoutTypes)
    (h11 : c.h11_connection = none) (h2 : c.h2_connection = none) :
    (∀ hh, (HTTPConnection.connect env c v ce t).conn.h2_connection = some hh →
        hh.on_release = c.onRelease)
    ∧ (∀ hh, (HTTPConnection.connect env c v ce t).conn.h11_connection
          = some hh → hh.on_release = c.onRelease)
    ∧ (∀ f, c.release_func = some f → c.onRelease = some ⟨f, c.self_id⟩)
    ∧ (c.release_func = none → c.onRelease = none) := by
  refine ⟨?_, ?_, ?_, ?_⟩
  · intro hh hbound
    rcases connect_shape env c v ce t with ⟨e1, hq⟩ | ⟨e1, ctx, hq⟩
      | ⟨rr, w, ctx, hq⟩ | ⟨rr, w, ctx, hq⟩ <;> rw [hq] at hbound <;>
      simp only at hbound
    · rw [h2] at hbound
      exact absurd hbound (by simp)
    · rw [h2] at hbound
      exact absurd hbound (by simp)
    · rw [(Option.some.injEq _ _).mp hbound.symm]
    · rw [h2] at hbound
      exact absurd hbound (by simp)
  · intro hh hbound
    rcases connect_shape env c v ce t with ⟨e1, hq⟩ | ⟨e1, ctx, hq⟩
      | ⟨rr, w, ctx, hq⟩ | ⟨rr, w, ctx, hq⟩ <;> rw [hq] at hbound <;>
      simp only at hbound
    · rw [h11] at hbound
      exact absurd hbound (by simp)
    · rw [h11] at hbound
      exact absurd hbound (by simp)
    · rw [h11] at hbound
      exact absurd hbound (by simp)
    · rw [(Option.some.injEq _ _).mp hbound.symm]
  · intro f hf
    unfold HTTPConnection.onRelease
    rw [hf]
  · intro hf
    unfold HTTPConnection.onRelease
    rw [hf]

/-- C10: `close` assigns no field of the instance: both handle fields
stay as they were, so a subsequent `send` on a previously bound instance
still sees the bound handle, performs no new `connect`, and delegates to
the same (now closed) handle. -/
theorem c10_close_does_not_unbind (env : Env) (c : HTTPConnection) (r : Nat)
    (v : Option VerifyTypes) (ce : Option CertTypes) (t : Option TimeoutTypes) :
    (HTTPConnection.close env c).conn = c
    ∧ (∀ hh, c.h2_connection = some hh →
        HTTPConnection.send env (HTTPConnection.close env c).conn r v ce t
          = ⟨env.h2Send hh r t, c, [ConnEvent.h2Send hh r t]⟩)
    ∧ (∀ hh, c.h2_connection = none → c.h11_connection = some hh →
        HTTPConnection.send env (HTTPConnection.close env c).conn r v ce t
          = ⟨env.h11Send hh r t, c, [ConnEvent.h11Send hh r t]⟩)
    ∧ (¬(c.h11_connection = none ∧ c.h2_connection = none) →
        transportConnects
          (HTTPConnection.send env (HTTPConnection.close env c).conn
            r v ce t).trace = 0) := by
  refine ⟨close_conn env c, ?_, ?_, ?_⟩
  · intro hh h
    rw [close_conn env c]
    exact send_bound_h2 env c r v ce t hh h
  · intro hh h2 h
    rw [close_conn env c]
    exact send_bound_h11 env c r v ce t hh h2 h
  · intro hb
    rw [close_conn env c]
    exact send_tc_of_bound env c r v ce t hb

/-- Across a non-empty sequence of all-successful `send` calls starting
from the unbound state, exactly one transport-establishment call occurs:
the first `send` connects, the rest delegate. -/
theorem runSends_transport_once (env : Env) (sas : List SendArgs)
    (c : HTTPConnection) (h11 : c.h11_connection = none)
    (h2 : c.h2_connection = none) (hne : sas ≠ [])
    (hok : (runSends env c sas).2.2 = true) :
    transportConnects (runSends env c sas).2.1 = 1 := by
  cases sas with
  | nil => exact absurd rfl hne
  | cons a rest =>
    have hok' : (exceptOk
        (HTTPConnection.send env c a.request a.verify a.cert a.timeout).result
        && (runSends env
          (HTTPConnection.send env c a.request a.verify a.cert
            a.timeout).conn rest).2.2) = true := hok
    simp only [Bool.and_eq_true] at hok'
    obtain ⟨hsok, hrok⟩ := hok'
    obtain ⟨hcok, hbound⟩ :=
      send_unbound_ok env c a.request a.verify a.cert a.timeout h11 h2 hsok
    obtain ⟨hconn_eq, rest', htr, hnophase⟩ :=
      send_unbound env c a.request a.verify a.cert a.timeout h11 h2
    show transportConnects
        ((HTTPConnection.send env c a.request a.verify a.cert a.timeout).trace
          ++ (runSends env
            (HTTPConnection.send env c a.request a.verify a.cert
              a.timeout).conn rest).2.1) = 1
    rw [transportConnects_append]
    have h1 : transportConnects
        (HTTPConnection.send env c a.request a.verify a.cert
          a.timeout).trace = 1 := by
      rw [htr, transportConnects_append,
        connect_transport_once env c a.verify a.cert a.timeout hcok,
        transportConnects_zero_of_no_phase rest' hnophase]
    rw [h1, (runSends_bound env rest _ hbound).2]

/-- C2: `send` invokes `connect` exactly when both protocol handles are
null at the time of the call; across any non-empty sequence of
successful `send` calls on one instance exactly one transport connect
occurs (on the first call); and a freshly constructed instance starts
with both handles null, so no transport call can have happened yet. -/
theorem c2_lazy_connect_exactly_once (env : Env) (c : HTTPConnection)
    (r : Nat) (v : Option VerifyTypes) (ce : Option CertTypes)
    (t : Option TimeoutTypes) (sas : List SendArgs) (sid : Nat) (o : Origin)
    (vv : VerifyTypes) (cc : Option CertTypes) (tt : TimeoutTypes)
    (bb rf : Option Nat) :
    (c.h11_connection = none ∧ c.h2_connection = none →
       (HTTPConnection.send env c r v ce t).conn
           = (HTTPConnection.connect env c v ce t).conn
       ∧ ∃ rest, (HTTPConnection.send env c r v ce t).trace
           = (HTTPConnection.connect env c v ce t).trace ++ rest
           ∧ ∀ ev ∈ rest, isConnectPhase ev = false)
    ∧ (¬(c.h11_connection = none ∧ c.h2_connection = none) →
       (HTTPConnection.send env c r v ce t).conn = c
       ∧ connectPhaseEvents (HTTPConnection.send env c r v ce t).trace = 0)
    ∧ (c.h11_connection = none → c.h2_connection = none → sas ≠ [] →
       (runSends env c sas).2.2 = true →
       transportConnects (runSends env c sas).2.1 = 1)
    ∧ ((HTTPConnection.init sid o vv cc tt bb rf).h11_connection = none
       ∧ (HTTPConnection.init sid o vv cc tt bb rf).h2_connection = none) := by
  refine ⟨?_, ?_, ?_, rfl, rfl⟩
  · intro hnull
    exact send_unbound env c r v ce t hnull.1 hnull.2
  · intro hb
    exact ⟨send_conn_of_bound env c r v ce t hb,
      send_trace_of_bound env c r v ce t hb⟩
  · intro h11 h2 hne hok
    exact runSends_transport_once env sas c h11 h2 hne hok

/-- C1 (amended): starting from the unbound state, along any sequence of
`send`/`close` operations at most one protocol handle is ever non-null;
a successful `connect` from the unbound state binds exactly one handle;
and once a handle is bound, further `send`/`close` operations leave the
whole instance state — in particular the bound handle — unchanged.
(A second direct `connect` on an already-bound instance is not covered:
the code does not guard it and it can bind the second handle.) -/
theorem c1_single_bind (env : Env) (c : HTTPConnection) (ops ops2 : List Op)
    (h11 : c.h11_connection = none) (h2 : c.h2_connection = none) :
    boundCount (runOps env c ops).1 ≤ 1
    ∧ (∀ v ce t, (HTTPConnection.connect env c v ce t).result = Except.ok () →
        boundCount (HTTPConnection.connect env c v ce t).conn = 1)
    ∧ (∀ hh, (runOps env c ops).1.h2_connection = some hh →
        (runOps env (runOps env c ops).1 ops2).1 = (runOps env c ops).1)
    ∧ (∀ hh, (runOps env c ops).1.h11_connection = some hh →
        (runOps env (runOps env c ops).1 ops2).1 = (runOps env c ops).1) := by
  have hc0 : boundCount c ≤ 1 := by simp [boundCount, h11, h2]
  refine ⟨runOps_boundCount env ops c hc0, ?_, ?_, ?_⟩
  · intro v ce t hok
    rcases connect_ok_binds env c v ce t h11 h2 hok with
      ⟨hh, hb2, hb11, hrel, hbk⟩ | ⟨hh, hb11, hb2, hrel, hbk⟩
    · simp [boundCount, hb2, hb11]
    · simp [boundCount, hb11, hb2]
  · intro hh hb
    apply runOps_conn_preserved
    intro hcontra
    rw [hcontra.2] at hb
    exact absurd hb (by simp)
  · intro hh hb
    apply runOps_conn_preserved
    intro hcontra
    rw [hcontra.1] at hb
    exact absurd hb (by simp)

/-- A concrete well-behaved environment: TLS contexts load as id `10`, the
backend negotiates HTTP/1.1 under the default timeout configuration and
HTTP/2 under any other, protocol sends echo the request id. -/
def env0 : Env :=
  { loadSslContext := fun _ => Except.ok 10
    backendConnect := fun _ _ _ tconf =>
      if tconf.val = 0 then Except.ok (1, 2, Protocol.http_11)
      else Except.ok (3, 4, Protocol.http_2)
    h2Send := fun _ r _ => Except.ok r
    h11Send := fun _ r _ => Except.ok r
    h2Close := fun _ => Except.ok ()
    h11Close := fun _ => Except.ok ()
    h2IsClosed := fun _ => false
    h11IsClosed := fun _ => false
    h2Dropped := fun _ => false
    h11Dropped := fun _ => false }

/-- Environment whose backend always negotiates HTTP/1.1. -/
def envH11 : Env :=
  { env0 with backendConnect := fun _ _ _ _ =>
      Except.ok (1, 2, Protocol.http_11) }

/-- Environment whose backend always negotiates HTTP/2. -/
def envH2 : Env :=
  { env0 with backendConnect := fun _ _ _ _ =>
      Except.ok (3, 4, Protocol.http_2) }

/-- Environment whose TLS-context load raises a network error. -/
def envFailSsl : Env :=
  { env0 with loadSslContext := fun _ => Except.error (Error.network 3) }

/-- Environment whose backend connect raises a network error. -/
def envFailBc : Env :=
  { env0 with backendConnect := fun _ _ _ _ =>
      Except.error (Error.network 4) }

/-- Fresh instance for a plaintext origin with the default configuration. -/
def c0 : HTTPConnection :=
  HTTPConnection.init 0 ⟨"http", "example.test", 80⟩ true none
    DEFAULT_TIMEOUT_CONFIG none none

/-- Fresh instance for a TLS origin. -/
def cHttps : HTTPConnection :=
  HTTPConnection.init 1 ⟨"https", "example.test", 443⟩ true none
    DEFAULT_TIMEOUT_CONFIG none none

/-- Fresh instance whose stored timeout configuration is 7. -/
def cT7 : HTTPConnection :=
  HTTPConnection.init 0 ⟨"http", "example.test", 80⟩ true none 7 none none

/-- `cT7` after a successful HTTP/1.1 connect. -/
def cT7bound : HTTPConnection :=
  (HTTPConnection.connect envH11 cT7 none none none).conn

/-- Fresh instance constructed with a release callback (id 5),
object identity 42. -/
def cRel : HTTPConnection :=
  HTTPConnection.init 42 ⟨"http", "example.test", 80⟩ true none 0 none (some 5)

/-- `c0` after a first direct `connect` (negotiates HTTP/1.1 in `env0`). -/
def c0after1 : HTTPConnection :=
  (HTTPConnection.connect env0 c0 none none none).conn

/-- `c0after1` after a second direct `connect` with a timeout override
(negotiates HTTP/2 in `env0`). -/
def c0after2 : HTTPConnection :=
  (HTTPConnection.connect env0 c0after1 none none (some 1)).conn

/-- `c0` after a successful HTTP/2 connect. -/
def cH2bound : HTTPConnection :=
  (HTTPConnection.connect envH2 c0 none none none).conn

/-- C1 counterexample: two successful direct `connect` calls on the same
instance — the first negotiating HTTP/1.1, the second HTTP/2 — leave BOTH
protocol handles non-null, refuting "at most one of the two handles is
ever non-null, including across a second direct call to connect". -/
theorem c1_counterexample :
    (HTTPConnection.connect env0 c0 none none none).result = Except.ok ()
    ∧ (HTTPConnection.connect env0 c0after1 none none (some 1)).result
        = Except.ok ()
    ∧ c0after2.h11_connection.isSome = true
    ∧ c0after2.h2_connection.isSome = true
    ∧ boundCount c0after2 = 2 := by decide

/-- C4 counterexample: on an instance whose stored timeout configuration
is 7, a `send` without a per-call timeout override hands the bound
HTTP/1.1 handle the raw argument `none` — not the stored (effective)
timeout configuration — refuting "send passes the effective timeout as
the timeout argument of the handle's send". -/
theorem c4_counterexample :
    (HTTPConnection.send envH11 cT7bound 9 none none none).trace
        = [ConnEvent.h11Send ⟨1, 2, 0, none⟩ 9 none]
    ∧ cT7bound.timeout = ⟨7⟩
    ∧ sentTimeout (ConnEvent.h11Send ⟨1, 2, 0, none⟩ 9 none) = some none
    ∧ (none : Option TimeoutTypes) ≠ some cT7bound.timeout.val := by decide

theorem c1_single_bind_witness :
    boundCount (runOps envH11 c0 [Op.send 9 none none none]).1 ≤ 1
    ∧ boundCount (HTTPConnection.connect envH11 c0 none none none).conn = 1
    ∧ (runOps envH11 (runOps envH11 c0 [Op.send 9 none none none]).1
        [Op.close]).1 = (runOps envH11 c0 [Op.send 9 none none none]).1 := by
  have h := c1_single_bind envH11 c0 [Op.send 9 none none none] [Op.close]
    rfl rfl
  exact ⟨h.1, h.2.1 none none none (by decide),
    h.2.2.2 ⟨1, 2, 0, none⟩ (by decide)⟩

theorem c2_lazy_connect_witness :
    ((HTTPConnection.send envH11 c0 9 none none none).conn
        = (HTTPConnection.connect envH11 c0 none none none).conn)
    ∧ transportConnects
        (runSends envH11 c0 [⟨9, none, none, none⟩, ⟨8, none, none, none⟩]).2.1
        = 1 := by
  have h := c2_lazy_connect_exactly_once envH11 c0 9 none none none
    [⟨9, none, none, none⟩, ⟨8, none, none, none⟩] 0 ⟨"http", "h", 1⟩ true
    none 0 none none
  exact ⟨(h.1 ⟨rfl, rfl⟩).1, h.2.2.1 rfl rfl (by simp) (by decide)⟩

theorem c3_delegation_witness :
    HTTPConnection.send envH2 cH2bound 9 none none none
        = ⟨envH2.h2Send ⟨3, 4, 0, none⟩ 9 none, cH2bound,
           [ConnEvent.h2Send ⟨3, 4, 0, none⟩ 9 none]⟩
    ∧ (HTTPConnection.connect envH2 c0 none none none).conn
        = { c0 with h2_connection := some ⟨3, 4, 0, c0.onRelease⟩ }
    ∧ h11Sends (HTTPConnection.send envH2 c0 9 none none none).trace = 0 := by
  have hb := c3_delegation_correct envH2 cH2bound 9 none none none none 3 4
    Protocol.http_2
  have hf := c3_delegation_correct envH2 c0 9 none none none none 3 4
    Protocol.http_2
  refine ⟨(hb.1 ⟨3, 4, 0, none⟩ (by decide)).1, ?_, ?_⟩
  · exact ((hf.2.2 rfl rfl (by decide) (by decide)).1 rfl).1
  · exact ((hf.2.2 rfl rfl (by decide) (by decide)).1 rfl).2.2

theorem c4_raw_timeout_witness :
    (ConnEvent.h11Send ⟨1, 2, 0, none⟩ 9 (some 3))
        ∈ (HTTPConnection.send envH11 cT7bound 9 none none (some 3)).trace
    ∧ (some 3 : Option TimeoutTypes) = some 3 := by
  have hmem : (ConnEvent.h11Send ⟨1, 2, 0, none⟩ 9 (some 3))
      ∈ (HTTPConnection.send envH11 cT7bound 9 none none (some 3)).trace := by
    decide
  exact ⟨hmem, c4_raw_timeout_passthrough envH11 cT7bound 9 none none (some 3)
    (ConnEvent.h11Send ⟨1, 2, 0, none⟩ 9 (some 3)) hmem (some 3) (by decide)⟩

theorem c5_connect_failure_witness :
    (HTTPConnection.connect envFailSsl cHttps none none none).result
        = Except.error (Error.network 3)
    ∧ (HTTPConnection.connect envFailSsl cHttps none none none).conn = cHttps
    ∧ (HTTPConnection.connect envFailBc c0 none none none).result
        = Except.error (Error.network 4) := by
  have h := c5_connect_failure_atomic envFailSsl cHttps none none none
    (Error.network 3) none
  have h2 := c5_connect_failure_atomic envFailBc c0 none none none
    (Error.network 4) none
  have hres := h.2.1 (by decide) rfl
  exact ⟨hres, h.1 hres, h2.2.2 (by decide) rfl⟩

theorem c6_close_witness :
    HTTPConnection.close env0 c0 = ⟨Except.ok (), c0, []⟩
    ∧ HTTPConnection.close envH11 cT7bound
        = ⟨envH11.h11Close ⟨1, 2, 0, none⟩, cT7bound,
           [ConnEvent.h11Close ⟨1, 2, 0, none⟩]⟩ := by
  have h := c6_close_cases env0 c0
  have hb := c6_close_cases envH11 cT7bound
  exact ⟨h.2.2 rfl rfl, hb.2.1 ⟨1, 2, 0, none⟩ (by decide) (by decide)⟩

theorem c7_accessors_witness :
    HTTPConnection.is_closed env0 c0 = Except.error Error.assertionError
    ∧ HTTPConnection.is_connection_dropped env0 c0
        = Except.error Error.assertionError
    ∧ HTTPConnection.is_closed envH2 cH2bound
        = Except.ok (envH2.h2IsClosed ⟨3, 4, 0, none⟩) := by
  have h := c7_accessors_delegate_or_assert env0 c0
  have hb := c7_accessors_delegate_or_assert envH2 cH2bound
  exact ⟨(h.2.2.1 rfl rfl).1, (h.2.2.1 rfl rfl).2,
    (hb.1 ⟨3, 4, 0, none⟩ (by decide)).1⟩

theorem c8_overrides_witness :
    (HTTPConnection.connect env0 cHttps (some false) none (some 9)).conn.ssl
        = cHttps.ssl
    ∧ ∃ rest, (HTTPConnection.connect env0 cHttps (some false) none
        (some 9)).trace
        = ConnEvent.loadSslContext
            (cHttps.ssl.with_overrides (some false) none) :: rest := by
  have h := c8_overrides_do_not_mutate env0 cHttps 9 (some false) none (some 9)
  exact ⟨h.1, h.2.2.2.2.2.2 (by decide)⟩

theorem c9_release_witness :
    ((⟨1, 2, 0, some ⟨5, 42⟩⟩ : HTTP11Connection)).on_release = cRel.onRelease
    ∧ cRel.onRelease = some ⟨5, 42⟩ := by
  have h := c9_release_closure envH11 cRel none none none rfl rfl
  exact ⟨h.2.1 ⟨1, 2, 0, some ⟨5, 42⟩⟩ (by decide), h.2.2.1 5 rfl⟩

theorem c10_close_frame_witness :
    (HTTPConnection.close envH11 cT7bound).conn = cT7bound
    ∧ HTTPConnection.send envH11 (HTTPConnection.close envH11 cT7bound).conn
        9 none none none
        = ⟨envH11.h11Send ⟨1, 2, 0, none⟩ 9 none, cT7bound,
           [ConnEvent.h11Send ⟨1, 2, 0, none⟩ 9 none]⟩
    ∧ transportConnects
        (HTTPConnection.send envH11 (HTTPConnection.close envH11 cT7bound).conn
          9 none none none).trace = 0 := by
  have h := c10_close_does_not_unbind envH11 cT7bound 9 none none none
  exact ⟨h.1, h.2.2.1 ⟨1, 2, 0, none⟩ (by decide) (by decide),
    h.2.2.2 (by decide)⟩

end Httpx
